import Mathlib

/-!
Verification development for the HF-Doctor appointment-booking assistant.

The repository has two variants of the same Gradio chat application:
`src/app-webhook.py` (duplicate check + confirmation webhook with retry) and
`src/app-calendar.py` (plain booking).  Timestamps are embedded as whole
minutes (`Int`); `timedelta(hours=3)` is `180` and `timedelta(minutes=30)`
is `30`.  External collaborators (the Google Calendar service, the
confirmation endpoint, the specialist classifier, the LLM stream) are
embedded as an explicit environment record whose fields describe exactly
the observable behaviour the Python code depends on.
-/

/-- Kinds of Python exception that the two apps distinguish:
`googleapiclient.errors.HttpError` (caught specially), the `RetryError`
raised by tenacity when all attempts are exhausted, and every other
exception. -/
inductive PyErr where
  | httpError
  | retryError
  | otherError
deriving DecidableEq, Repr

/-- A calendar event body as built by `schedule_appointment` (both
variants): summary, description, start/end datetimes (minutes), and the
`extendedProperties.private.requiresConfirmation` flag (absent, i.e.
`false`, in the app-calendar variant). -/
structure GEvent where
  summary : String
  description : String
  startTime : Int
  endTime : Int
  requiresConfirmation : Bool
deriving DecidableEq, Repr

/-- The environment of one chat turn: the pure external collaborators and
the observable behaviour of the external services.
`define_specialist` is the symptom classifier (external, pure);
`calendar` is the event store held by the Google Calendar service;
`listFails`/`insertFails` say whether the calendar read/write raises;
`webhookConfigured` models `CONFIRMATION_WEBHOOK_URL` being set;
`postOutcome n` is whether the `n`-th (0-based) webhook POST succeeds
(2xx); `nextId` is the id the calendar assigns to an inserted event;
`now` is `datetime.now()` in minutes; `systemPrompt` and `llm` feed the
out-of-scope LLM path, with `llmRaises` flagging a raised stream. -/
structure Env where
  define_specialist : String → String
  calendar : List GEvent
  listFails : Option PyErr
  insertFails : Bool
  webhookConfigured : Bool
  postOutcome : Nat → Bool
  nextId : String
  now : Int
  systemPrompt : String
  llm : String → List String
  llmRaises : Bool

/-- Python `str.lower` restricted to the character classes appearing in
this repository: ASCII letters and the Cyrillic block А-Я / Ё. -/
def pyLowerChar (c : Char) : Char :=
  if 0x410 ≤ c.toNat ∧ c.toNat ≤ 0x42F then Char.ofNat (c.toNat + 0x20)
  else if c.toNat = 0x401 then Char.ofNat 0x451
  else c.toLower

/-- Python `str.lower` on a whole string (see `pyLowerChar`). -/
def pyLower (s : String) : String :=
  String.mk (s.data.map pyLowerChar)

/-- Python `needle in hay` substring containment. -/
def strContains (hay needle : String) : Bool :=
  (List.range (hay.data.length + 1)).any fun i => needle.data.isPrefixOf (hay.data.drop i)

/-- Python `s.split(sep, 1)`: `none` when `sep` does not occur (Python
returns the one-element list `[s]`), otherwise the parts before and after
the first occurrence. -/
def splitFirst (sep : Char) : List Char → Option (List Char × List Char)
  | [] => none
  | c :: cs =>
      if c = sep then some ([], cs)
      else
        match splitFirst sep cs with
        | none => none
        | some (a, b) => some (c :: a, b)

/-- Python `str.strip()` (whitespace on both ends). -/
def pyStrip (s : String) : String :=
  String.mk (((s.data.dropWhile Char.isWhitespace).reverse.dropWhile Char.isWhitespace).reverse)

/-- The cumulative concatenations `yield`-ed by the streaming loop
`full_response += token; yield full_response`. -/
def cumConcat (acc : String) : List String → List String
  | [] => []
  | t :: ts => (acc ++ t) :: cumConcat (acc ++ t) ts

/-- Gregorian civil date (year, month, day) from a count of days since
1970-01-01 (Hinnant's `civil_from_days` algorithm), used to embed
`strftime` faithfully. -/
def civilFromDays (z0 : Int) : Int × Int × Int :=
  let z := z0 + 719468
  let era := z.ediv 146097
  let doe := z - era * 146097
  let yoe := (doe - doe.ediv 1460 + doe.ediv 36524 - doe.ediv 146096).ediv 365
  let y := yoe + era * 400
  let doy := doe - (365 * yoe + yoe.ediv 4 - yoe.ediv 100)
  let mp := (5 * doy + 2).ediv 153
  let d := doy - (153 * mp + 2).ediv 5 + 1
  let m := mp + (if mp < 10 then 3 else -9)
  (if m ≤ 2 then y + 1 else y, m, d)

/-- Zero-padding to two digits, as `%d`, `%m`, `%H`, `%M` do. -/
def pad2 (n : Int) : String :=
  if n < 10 then "0" ++ toString n else toString n

/-- `datetime.strftime('%d.%m.%Y %H:%M')` on a timestamp in minutes since
1970-01-01 00:00. -/
def fmtDT (m : Int) : String :=
  let days := m.ediv 1440
  let mins := m.emod 1440
  let ymd := civilFromDays days
  pad2 ymd.2.2 ++ "." ++ pad2 ymd.2.1 ++ "." ++ toString ymd.1 ++ " " ++
    pad2 (mins.ediv 60) ++ ":" ++ pad2 (mins.emod 60)

/-- A single-quote character, for embedding Python `repr`. -/
def pySq : String := String.mk [Char.ofNat 39]

/-- Python `repr` of a string, for the quote-free strings this app passes
around. -/
def pyStrRepr (s : String) : String := pySq ++ s ++ pySq

/-- Python `repr` of a chat history (a list of `(user, assistant)` string
pairs), as interpolated by the f-string in the webhook variant. -/
def pyReprHistory (h : List (String × String)) : String :=
  "[" ++ String.intercalate ", "
    (h.map fun p => "(" ++ pyStrRepr p.1 ++ ", " ++ pyStrRepr p.2 ++ ")") ++ "]"

/-- Outcome of one `schedule_appointment` call in the webhook variant:
the Python return value (`None` on a swallowed non-HTTP exception), the
calendar contents afterwards, and how many webhook POST attempts were
made. -/
structure SAResult where
  result : Option String
  calendar : List GEvent
  attempts : Nat
deriving DecidableEq, Repr

/-- Observable behaviour of one call of the generator function
`generate_response`: the sequence of `yield`-ed strings, the generator
return value (`StopIteration.value`, invisible to the chat UI), the
`generate_response.step` attribute afterwards (`none` = attribute unset),
the calendar contents afterwards, and webhook attempts made. -/
structure GenResult where
  yields : List String
  ret : Option String
  step : Option Nat
  calendar : List GEvent
  attempts : Nat
deriving DecidableEq, Repr

namespace Webhook

/-- `MAX_RETRIES` (src/app-webhook.py line 22). -/
def MAX_RETRIES : Nat := 3

/-- The tenacity retry loop around `send_webhook_confirmation`:
`fuel` attempts remain, `made` have been made.  Returns the total number
of attempts and either success or the `RetryError` tenacity raises once
`stop_after_attempt(MAX_RETRIES)` fires. -/
def retryLoop (env : Env) : Nat → Nat → Nat × Except PyErr Unit
  | 0, made => (made, Except.error PyErr.retryError)
  | Nat.succ fuel, made =>
      if env.postOutcome made then (made + 1, Except.ok ())
      else retryLoop env fuel (made + 1)

/-- `send_webhook_confirmation` (src/app-webhook.py lines 44-66): if no
webhook URL is configured the first attempt returns immediately (logged
skip = success); otherwise each attempt POSTs and counts any non-2xx
response or raised network error (`raise_for_status` / `requests` both
re-raised by the `except` block) as a failure, retried by tenacity up to
`MAX_RETRIES` attempts in total. -/
def send_webhook_confirmation (env : Env) (eventId : String) : Nat × Except PyErr Unit :=
  if env.webhookConfigured = false then (1, Except.ok ())
  else retryLoop env MAX_RETRIES 0

/-- Whether one stored event is returned by the calendar
`events().list(timeMin, timeMax, q)` query: Google returns events whose
time range intersects `[timeMin, timeMax)` and which match the free-text
term `q`; the summaries this app writes are matched by `q` as a substring
of the summary. -/
def dupQueryMatches (e : GEvent) (timeMin timeMax : Int) (q : String) : Bool :=
  decide (e.startTime < timeMax) && decide (timeMin < e.endTime) &&
    strContains e.summary q

/-- `check_duplicate_event` (src/app-webhook.py lines 68-83): lists
events in `[time, time + 30min)` matching `q = "Прием: {name}"` with
`maxResults=1` and returns `len(items) > 0`; an `HttpError` raised by the
query is caught and yields `False`, while any other exception propagates
(the `except` clause names `HttpError` only). -/
def check_duplicate_event (env : Env) (name : String) (time : Int) : Except PyErr Bool :=
  match env.listFails with
  | some PyErr.httpError => Except.ok false
  | some e => Except.error e
  | none =>
      let items := (env.calendar.filter fun ev =>
        dupQueryMatches ev time (time + 30) ("Прием: " ++ name)).take 1
      Except.ok (decide (0 < items.length))

/-- The event body built at src/app-webhook.py lines 92-101:
`appointment_time = now + 3h`, end `+30min`, summary
`Прием: {name}, {specialist}`, confirmation required. -/
def appointmentEvent (env : Env) (name symptoms : String) : GEvent :=
  { summary := "Прием: " ++ name ++ ", " ++ env.define_specialist symptoms
    description := "Симптомы: " ++ symptoms
    startTime := env.now + 180
    endTime := env.now + 180 + 30
    requiresConfirmation := true }

/-- `schedule_appointment` (src/app-webhook.py lines 86-118): duplicate
check at `datetime.now()`, then specialist routing, event insertion and
the confirmation webhook; `except HttpError` returns the connection-error
string and `except Exception` (which is what a webhook `RetryError`
reaches) returns `None`, without deleting the already-inserted event. -/
def schedule_appointment (env : Env) (name symptoms : String) : SAResult :=
  match check_duplicate_event env name env.now with
  | Except.error PyErr.httpError =>
      { result := some "Ошибка подключения к системе записи. Попробуйте позже."
        calendar := env.calendar, attempts := 0 }
  | Except.error _ =>
      { result := none, calendar := env.calendar, attempts := 0 }
  | Except.ok true =>
      { result := some "У вас уже есть активная запись. Пожалуйста, дождитесь подтверждения."
        calendar := env.calendar, attempts := 0 }
  | Except.ok false =>
      if env.insertFails then
        { result := some "Ошибка подключения к системе записи. Попробуйте позже."
          calendar := env.calendar, attempts := 0 }
      else
        match send_webhook_confirmation env env.nextId with
        | (made, Except.ok _) =>
            { result := some ("Предварительная запись к " ++ env.define_specialist symptoms ++
                " на " ++ fmtDT (env.now + 180) ++ " создана. Ожидайте подтверждения.")
              calendar := env.calendar ++ [appointmentEvent env name symptoms]
              attempts := made }
        | (made, Except.error PyErr.httpError) =>
            { result := some "Ошибка подключения к системе записи. Попробуйте позже."
              calendar := env.calendar ++ [appointmentEvent env name symptoms]
              attempts := made }
        | (made, Except.error _) =>
            { result := none
              calendar := env.calendar ++ [appointmentEvent env name symptoms]
              attempts := made }

/-- The booking-branch guard at src/app-webhook.py line 123:
`"запись" in message.lower() or "симптом" in message.lower()`. -/
def isTrigger (message : String) : Bool :=
  strContains (pyLower message) "запись" || strContains (pyLower message) "симптом"

/-- The prompt built at src/app-webhook.py line 141 (the f-string
interpolates the Python `repr` of the history list). -/
def webhookPrompt (env : Env) (message : String) (history : List (String × String)) : String :=
  env.systemPrompt ++ "\n\nДиалог:\n" ++ pyReprHistory history ++
    "\nПользователь: " ++ message ++ "\nПомощник:"

/-- The LLM streaming path of `generate_response` (src/app-webhook.py
lines 141-156): yields cumulative concatenations of the streamed tokens;
a raised stream reaches `except Exception`, which yields the internal
error string; the step attribute and calendar are untouched and the
generator has no return value. -/
def llmResult (env : Env) (st : Option Nat) (message : String)
    (history : List (String × String)) : GenResult :=
  { yields := cumConcat "" (env.llm (webhookPrompt env message history)) ++
      (if env.llmRaises then ["Произошла внутренняя ошибка. Пожалуйста, повторите запрос."]
       else [])
    ret := none, step := st, calendar := env.calendar, attempts := 0 }

/-- `generate_response` (src/app-webhook.py lines 121-156).  The state
`st` is the process-wide `generate_response.step` function attribute
(`none` when not yet set; `hasattr` initialises it to `0`).  The booking
branches use plain `return`, so they yield nothing. -/
def generate_response (env : Env) (st : Option Nat) (message : String)
    (history : List (String × String)) : GenResult :=
  if isTrigger message then
    let step := st.getD 0
    if step = 0 then
      { yields := []
        ret := some "Пожалуйста, укажите ваше полное имя и опишите симптомы (через запятую)."
        step := some 1, calendar := env.calendar, attempts := 0 }
    else if step = 1 then
      match splitFirst ',' message.data with
      | none =>
          { yields := []
            ret := some "Неверный формат. Пожалуйста, укажите имя и симптомы через запятую."
            step := some 0, calendar := env.calendar, attempts := 0 }
      | some (a, b) =>
          let r := schedule_appointment env (pyStrip (String.mk a)) (pyStrip (String.mk b))
          { yields := []
            ret := some (r.result.getD "Извините, произошла ошибка обработки запроса.")
            step := some 0, calendar := r.calendar, attempts := r.attempts }
    else llmResult env st message history
  else llmResult env st message history

/-- The code keeps `step` in a single process-wide function attribute, so
the value any session observes is that one shared attribute, whatever the
session's identity is. -/
def stepSeenBySession (st : Option Nat) (sessionId : Nat) : Option Nat := st

end Webhook

namespace CalendarApp

/-- The event body built at src/app-calendar.py lines 50-61: same slot
arithmetic as the webhook variant, description notes that confirmation is
required but no `extendedProperties` flag is set. -/
def appointmentEvent (env : Env) (name symptoms : String) : GEvent :=
  { summary := "Прием: " ++ name ++ ", " ++ env.define_specialist symptoms
    description := "Симптомы: " ++ symptoms ++ ". Требует подтверждения."
    startTime := env.now + 180
    endTime := env.now + 180 + 30
    requiresConfirmation := false }

/-- `schedule_appointment` (src/app-calendar.py lines 44-71): no
duplicate check and no webhook; `except Exception` turns any raised
insert into a fixed error string. -/
def schedule_appointment (env : Env) (name symptoms : String) : String × List GEvent :=
  if env.insertFails then
    ("Ошибка при создании записи. Пожалуйста, попробуйте позже.", env.calendar)
  else
    ("Запись к " ++ env.define_specialist symptoms ++ " на " ++ fmtDT (env.now + 180) ++
      " оформлена.", env.calendar ++ [appointmentEvent env name symptoms])

/-- The booking-branch guard at src/app-calendar.py line 75:
`"симптом" in message.lower() or "запись" in message.lower()`. -/
def isTrigger (message : String) : Bool :=
  strContains (pyLower message) "симптом" || strContains (pyLower message) "запись"

/-- `format_prompt` (src/app-calendar.py lines 37-42). -/
def format_prompt (env : Env) (message : String) (history : List (String × String)) : String :=
  env.systemPrompt ++ "\n\n" ++
    String.join (history.map fun p =>
      "Пользователь: " ++ p.1 ++ "\nПомощник: " ++ p.2 ++ "\n") ++
    "Пользователь: " ++ message ++ "\nПомощник: "

/-- The LLM streaming path of `generate_response` (src/app-calendar.py
lines 90-105), analogous to the webhook variant. -/
def llmResult (env : Env) (st : Option Nat) (message : String)
    (history : List (String × String)) : GenResult :=
  { yields := cumConcat "" (env.llm (format_prompt env message history)) ++
      (if env.llmRaises then ["Произошла ошибка. Пожалуйста, попробуйте еще раз."]
       else [])
    ret := none, step := st, calendar := env.calendar, attempts := 0 }

/-- `generate_response` (src/app-calendar.py lines 73-105).  The details
branch splits at the first space (`name, *symptoms = message.split(' ', 1)`,
with `symptoms = ""` when there is no space), books, then resets the
process-wide step attribute to `0` and returns the booking string. -/
def generate_response (env : Env) (st : Option Nat) (message : String)
    (history : List (String × String)) : GenResult :=
  if isTrigger message then
    let step := st.getD 0
    if step = 0 then
      { yields := []
        ret := some "Пожалуйста, укажите ваше полное имя и опишите симптомы."
        step := some 1, calendar := env.calendar, attempts := 0 }
    else if step = 1 then
      match splitFirst ' ' message.data with
      | none =>
          let r := schedule_appointment env (pyStrip message) (pyStrip "")
          { yields := [], ret := some r.1, step := some 0, calendar := r.2, attempts := 0 }
      | some (a, b) =>
          let r := schedule_appointment env (pyStrip (String.mk a)) (pyStrip (String.mk b))
          { yields := [], ret := some r.1, step := some 0, calendar := r.2, attempts := 0 }
    else llmResult env st message history
  else llmResult env st message history

end CalendarApp

/-- A baseline environment: empty calendar, all external services
healthy, confirmation webhook unconfigured, specialist classifier
constantly `"терапевт"`, request time `0` (1970-01-01 00:00), LLM
streaming nothing. -/
def envBase : Env :=
  { define_specialist := fun _ => "терапевт"
    calendar := []
    listFails := none
    insertFails := false
    webhookConfigured := false
    postOutcome := fun _ => true
    nextId := "ev1"
    now := 0
    systemPrompt := ""
    llm := fun _ => []
    llmRaises := false }

/-- `envBase` with the confirmation webhook configured and every POST
attempt failing. -/
def envDispatchFail : Env :=
  { envBase with webhookConfigured := true, postOutcome := fun _ => false }

/-- `envBase` with the calendar query raising a non-`HttpError`
exception. -/
def envListOtherErr : Env :=
  { envBase with listFails := some PyErr.otherError }

/-- `envBase` with one stored event occupying the appointment slot that a
request at time `0` would book (`[180, 210]`, i.e. three hours after the
request), under the name `Иван`. -/
def envSlotTaken : Env :=
  { envBase with calendar :=
      [{ summary := "Прием: Иван, терапевт", description := "Симптомы: кашель"
         startTime := 180, endTime := 210, requiresConfirmation := true }] }

/-- `envBase` with one stored event overlapping the dedup query window
`[now, now + 30]` for a request at time `0`, under the name `Иван`. -/
def envWindowHit : Env :=
  { envBase with calendar :=
      [{ summary := "Прием: Иван, терапевт", description := "Симптомы: кашель"
         startTime := 10, endTime := 40, requiresConfirmation := true }] }

/-- The calendar state after one successful booking for `Иван` from
`envBase`, with the clock unchanged: the environment of an immediately
repeated identical submission. -/
def envSecondRun : Env :=
  { envBase with calendar := (Webhook.schedule_appointment envBase "Иван" "кашель").calendar }

/-- A filter result is non-empty exactly when some element matches. -/
theorem filter_length_any {α : Type} (p : α → Bool) (l : List α) :
    decide (0 < (l.filter p).length) = l.any p := by
  induction l with
  | nil => rfl
  | cons a as ih =>
      cases h : p a with
      | true => simp [List.filter_cons, h]
      | false =>
          rw [List.filter_cons, if_neg (by simp [h]), List.any_cons, h, Bool.false_or]
          exact ih

/-- A `maxResults=1` query is non-empty exactly when some stored element
matches the query predicate. -/
theorem take_one_filter_length {α : Type} (p : α → Bool) (l : List α) :
    decide (0 < ((l.filter p).take 1).length) = l.any p := by
  have h2 : (0 < ((l.filter p).take 1).length) ↔ (0 < (l.filter p).length) := by
    rw [List.length_take]
    omega
  rw [decide_eq_decide.mpr h2, filter_length_any]

/-- C7: every appointment slot generated by a booking (in either app
variant) ends exactly 30 minutes after it starts and starts exactly 180
minutes (3 hours) after the request time, and whenever
`schedule_appointment` grows the calendar it does so with exactly that
event. -/
theorem c7_slot_geometry (env : Env) (name symptoms : String) :
    (Webhook.appointmentEvent env name symptoms).endTime -
      (Webhook.appointmentEvent env name symptoms).startTime = 30 ∧
    (Webhook.appointmentEvent env name symptoms).startTime - env.now = 180 ∧
    (CalendarApp.appointmentEvent env name symptoms).endTime -
      (CalendarApp.appointmentEvent env name symptoms).startTime = 30 ∧
    (CalendarApp.appointmentEvent env name symptoms).startTime - env.now = 180 ∧
    ((Webhook.schedule_appointment env name symptoms).calendar = env.calendar ∨
      (Webhook.schedule_appointment env name symptoms).calendar =
        env.calendar ++ [Webhook.appointmentEvent env name symptoms]) ∧
    ((CalendarApp.schedule_appointment env name symptoms).2 = env.calendar ∨
      (CalendarApp.schedule_appointment env name symptoms).2 =
        env.calendar ++ [CalendarApp.appointmentEvent env name symptoms]) := by
  refine ⟨by simp [Webhook.appointmentEvent], by simp [Webhook.appointmentEvent],
    by simp [CalendarApp.appointmentEvent], by simp [CalendarApp.appointmentEvent], ?_, ?_⟩
  · unfold Webhook.schedule_appointment
    split
    · exact Or.inl rfl
    · exact Or.inl rfl
    · exact Or.inl rfl
    · split
      · exact Or.inl rfl
      · split
        · exact Or.inr rfl
        · exact Or.inr rfl
        · exact Or.inr rfl
  · unfold CalendarApp.schedule_appointment
    split
    · exact Or.inl rfl
    · exact Or.inr rfl

/-- C2 (amended): with a healthy calendar service, `check_duplicate_event`
returns `ok true` exactly when some stored event overlaps the 30-minute
window starting at the check's `time` argument — which the booking calls
with the request time `datetime.now()`, not the appointment's own slot —
and whose summary contains `Прием: <name>`. -/
theorem c2_amended (env : Env) (name : String) (time : Int)
    (h : env.listFails = none) :
    Webhook.check_duplicate_event env name time =
      Except.ok (env.calendar.any fun e =>
        Webhook.dupQueryMatches e time (time + 30) ("Прием: " ++ name)) ∧
    (Webhook.check_duplicate_event env name time = Except.ok true ↔
      ∃ e ∈ env.calendar,
        Webhook.dupQueryMatches e time (time + 30) ("Прием: " ++ name) = true) := by
  have h1 : Webhook.check_duplicate_event env name time =
      Except.ok (env.calendar.any fun e =>
        Webhook.dupQueryMatches e time (time + 30) ("Прием: " ++ name)) := by
    simp [Webhook.check_duplicate_event, h, take_one_filter_length, filter_length_any]
  refine ⟨h1, ?_⟩
  rw [h1]
  simp [List.any_eq_true]

/-- C2 (amended) witness at a concrete input. -/
theorem c2_amended_witness :
    envWindowHit.listFails = none ∧
    (Webhook.check_duplicate_event envWindowHit "Иван" 0 =
      Except.ok (envWindowHit.calendar.any fun e =>
        Webhook.dupQueryMatches e 0 (0 + 30) ("Прием: " ++ "Иван"))) :=
  ⟨rfl, (c2_amended envWindowHit "Иван" 0 rfl).1⟩

/-- C2 counterexample: the claim says the check consults the
appointment's own slot (here `[0 + 180, 0 + 180 + 30]` for a request at
time `0`) and returns true when a same-name event overlaps it; with such
an event stored, the code's check — which runs on `[0, 30]` — returns
false. -/
theorem c2_counterexample :
    Webhook.check_duplicate_event envSlotTaken "Иван" 0 = Except.ok false ∧
    envSlotTaken.calendar.any (fun e =>
      Webhook.dupQueryMatches e (0 + 180) (0 + 180 + 30) ("Прием: " ++ "Иван")) = true := by
  exact ⟨rfl, by decide⟩

/-- C6 (amended): an `HttpError` raised by the calendar query makes the
duplicate check return `false` (fail-open); it is the only exception the
check swallows. -/
theorem c6_amended (env : Env) (name : String) (time : Int)
    (h : env.listFails = some PyErr.httpError) :
    Webhook.check_duplicate_event env name time = Except.ok false := by
  simp [Webhook.check_duplicate_event, h]

/-- C6 (amended) witness at a concrete input. -/
theorem c6_amended_witness :
    { envBase with listFails := some PyErr.httpError }.listFails = some PyErr.httpError ∧
    Webhook.check_duplicate_event { envBase with listFails := some PyErr.httpError } "Иван" 0 =
      Except.ok false :=
  ⟨rfl, c6_amended { envBase with listFails := some PyErr.httpError } "Иван" 0 rfl⟩

/-- C6 counterexample: a non-`HttpError` raised by the query propagates
out of `check_duplicate_event` instead of returning false, and the
booking is then blocked (the orchestrator swallows it into a `None`
outcome, surfaced as the generic error reply). -/
theorem c6_counterexample :
    Webhook.check_duplicate_event envListOtherErr "Иван" 0 =
      Except.error PyErr.otherError ∧
    (Webhook.schedule_appointment envListOtherErr "Иван" "кашель").result = none ∧
    (Webhook.schedule_appointment envListOtherErr "Иван" "кашель").calendar = [] := by
  exact ⟨rfl, rfl, rfl⟩

/-- C5: with the webhook configured and the endpoint persistently
failing, `send_webhook_confirmation` makes exactly `MAX_RETRIES = 3`
attempts and then raises (tenacity's retry-exhausted error), while the
calendar event created before the dispatch is still in the calendar
afterwards. -/
theorem c5_retry_exhaustion (env : Env) (name symptoms : String)
    (hcfg : env.webhookConfigured = true)
    (hfail : ∀ n, env.postOutcome n = false)
    (hins : env.insertFails = false)
    (hdup : Webhook.check_duplicate_event env name env.now = Except.ok false) :
    Webhook.send_webhook_confirmation env env.nextId = (3, Except.error PyErr.retryError) ∧
    (Webhook.schedule_appointment env name symptoms).attempts = 3 ∧
    Webhook.appointmentEvent env name symptoms ∈
      (Webhook.schedule_appointment env name symptoms).calendar := by
  have hloop : Webhook.send_webhook_confirmation env env.nextId =
      (3, Except.error PyErr.retryError) := by
    simp [Webhook.send_webhook_confirmation, hcfg, Webhook.MAX_RETRIES,
      Webhook.retryLoop, hfail]
  refine ⟨hloop, ?_, ?_⟩
  · simp [Webhook.schedule_appointment, hdup, hins, hloop]
  · simp [Webhook.schedule_appointment, hdup, hins, hloop]

/-- C5 witness at a concrete input. -/
theorem c5_retry_exhaustion_witness :
    envDispatchFail.webhookConfigured = true ∧
    envDispatchFail.insertFails = false ∧
    Webhook.send_webhook_confirmation envDispatchFail envDispatchFail.nextId =
      (3, Except.error PyErr.retryError) ∧
    Webhook.appointmentEvent envDispatchFail "Иван" "кашель" ∈
      (Webhook.schedule_appointment envDispatchFail "Иван" "кашель").calendar :=
  ⟨rfl, rfl,
    (c5_retry_exhaustion envDispatchFail "Иван" "кашель" rfl (fun _ => rfl) rfl rfl).1,
    (c5_retry_exhaustion envDispatchFail "Иван" "кашель" rfl (fun _ => rfl) rfl rfl).2.2⟩

/-- C4 (amended): when the event has been created and the confirmation
dispatch exhausts all retries, the event stays in the calendar, but the
booking's Python return value is `None` (the retry-exhausted exception is
swallowed by `except Exception`), which `generate_response` surfaces as
the generic processing-error string — not the pending-confirmation
string. -/
theorem c4_amended (env : Env) (name symptoms : String)
    (hcfg : env.webhookConfigured = true)
    (hfail : ∀ n, env.postOutcome n = false)
    (hins : env.insertFails = false)
    (hdup : Webhook.check_duplicate_event env name env.now = Except.ok false) :
    Webhook.schedule_appointment env name symptoms =
      { result := none
        calendar := env.calendar ++ [Webhook.appointmentEvent env name symptoms]
        attempts := 3 } ∧
    (Webhook.schedule_appointment env name symptoms).result.getD
      "Извините, произошла ошибка обработки запроса." =
      "Извините, произошла ошибка обработки запроса." := by
  have hloop : Webhook.send_webhook_confirmation env env.nextId =
      (3, Except.error PyErr.retryError) := by
    simp [Webhook.send_webhook_confirmation, hcfg, Webhook.MAX_RETRIES,
      Webhook.retryLoop, hfail]
  have h1 : Webhook.schedule_appointment env name symptoms =
      { result := none
        calendar := env.calendar ++ [Webhook.appointmentEvent env name symptoms]
        attempts := 3 } := by
    simp [Webhook.schedule_appointment, hdup, hins, hloop]
  exact ⟨h1, by rw [h1]; rfl⟩


/-- C4 (amended) witness at a concrete input. -/
theorem c4_amended_witness :
    envDispatchFail.webhookConfigured = true ∧
    Webhook.schedule_appointment envDispatchFail "Иван" "кашель" =
      { result := none
        calendar := envDispatchFail.calendar ++
          [Webhook.appointmentEvent envDispatchFail "Иван" "кашель"]
        attempts := 3 } :=
  ⟨rfl, (c4_amended envDispatchFail "Иван" "кашель" rfl (fun _ => rfl) rfl rfl).1⟩

/-- C4 counterexample: after the created event's confirmation dispatch
fails on every attempt, the user-facing reply of the chat turn is the
generic failure string, not the pending-confirmation string — even though
the created event is still in the calendar. -/
theorem c4_counterexample :
    (Webhook.generate_response envDispatchFail (some 1) "запись, кашель" []).ret =
      some "Извините, произошла ошибка обработки запроса." ∧
    Webhook.appointmentEvent envDispatchFail "запись" "кашель" ∈
      (Webhook.generate_response envDispatchFail (some 1) "запись, кашель" []).calendar ∧
    (Webhook.generate_response envDispatchFail (some 1) "запись, кашель" []).ret ≠
      some ("Предварительная запись к терапевт на 01.01.1970 03:00 создана. Ожидайте подтверждения.") := by
  refine ⟨rfl, by decide, by decide⟩

/-- C8 (amended): whenever the duplicate check reports an existing
reservation, the booking returns the duplicate string with the calendar
unchanged (no routing, no insert, no dispatch attempt); the second half
of the original claim fails — see the counterexample. -/
theorem c8_duplicate_aborts (env : Env) (name symptoms : String)
    (h : Webhook.check_duplicate_event env name env.now = Except.ok true) :
    Webhook.schedule_appointment env name symptoms =
      { result := some "У вас уже есть активная запись. Пожалуйста, дождитесь подтверждения."
        calendar := env.calendar
        attempts := 0 } := by
  simp [Webhook.schedule_appointment, h]

/-- C8 (amended) witness at a concrete input. -/
theorem c8_duplicate_aborts_witness :
    Webhook.check_duplicate_event envWindowHit "Иван" envWindowHit.now = Except.ok true ∧
    Webhook.schedule_appointment envWindowHit "Иван" "кашель" =
      { result := some "У вас уже есть активная запись. Пожалуйста, дождитесь подтверждения."
        calendar := envWindowHit.calendar
        attempts := 0 } :=
  ⟨rfl, c8_duplicate_aborts envWindowHit "Иван" "кашель" rfl⟩

/-- C8 counterexample: submitting the identical name and slot twice in a
row (same request time `0`, so the identical generated slot) creates a
second event: the first booking fills the calendar with the slot event at
`[180, 210]`, but the second booking's duplicate check only looks at
`[0, 30]`, finds nothing, and inserts again instead of returning the
duplicate string. -/
theorem c8_counterexample :
    (Webhook.schedule_appointment envBase "Иван" "кашель").calendar.length = 1 ∧
    (Webhook.schedule_appointment envSecondRun "Иван" "кашель").calendar.length = 2 ∧
    (Webhook.schedule_appointment envSecondRun "Иван" "кашель").result ≠
      some "У вас уже есть активная запись. Пожалуйста, дождитесь подтверждения." := by
  refine ⟨rfl, rfl, by decide⟩

/-- C1: evaluation at the failing input.  The step state lives in one
process-wide function attribute, so a trigger message processed in
session A (advancing the step from unset/Idle to AwaitingDetails) is
observed by any other session B: B's visible step changes from `none` to
`some 1`. -/
theorem c1_step_shared_across_sessions :
    (Webhook.generate_response envBase none "Нужна запись к врачу" []).step = some 1 ∧
    Webhook.stepSeenBySession
        ((Webhook.generate_response envBase none "Нужна запись к врачу" []).step) 7 ≠
      Webhook.stepSeenBySession none 7 := by
  refine ⟨rfl, by decide⟩

/-- C3 counterexample: a details message without a booking trigger term,
received while the step is AwaitingDetails, is forwarded to the LLM path:
the step is not reset to Idle, the orchestrator is not invoked (the
calendar is untouched) and no result string is returned. -/
theorem c3_counterexample :
    (Webhook.generate_response envBase (some 1) "Иван Петров, болит горло" []).step = some 1 ∧
    (Webhook.generate_response envBase (some 1) "Иван Петров, болит горло" []).ret = none ∧
    (Webhook.generate_response envBase (some 1) "Иван Петров, болит горло" []).calendar = [] := by
  refine ⟨rfl, rfl, rfl⟩

/-- C3 (amended): for every message that contains a booking trigger term
and splits at a comma, received while the step is AwaitingDetails, the
tracker parses name and symptoms (stripping whitespace), invokes the
booking orchestrator, resets the step to Idle regardless of the outcome,
and returns the orchestrator's result string (with a fixed fallback when
the orchestrator returns `None`); it yields nothing. -/
theorem c3_amended (env : Env) (message : String) (history : List (String × String))
    (a b : List Char)
    (ht : Webhook.isTrigger message = true)
    (hsplit : splitFirst ',' message.data = some (a, b)) :
    Webhook.generate_response env (some 1) message history =
      { yields := []
        ret := some ((Webhook.schedule_appointment env
          (pyStrip (String.mk a)) (pyStrip (String.mk b))).result.getD
          "Извините, произошла ошибка обработки запроса.")
        step := some 0
        calendar := (Webhook.schedule_appointment env
          (pyStrip (String.mk a)) (pyStrip (String.mk b))).calendar
        attempts := (Webhook.schedule_appointment env
          (pyStrip (String.mk a)) (pyStrip (String.mk b))).attempts } := by
  simp [Webhook.generate_response, ht, hsplit]

/-- C3 (amended) witness at a concrete input. -/
theorem c3_amended_witness :
    Webhook.isTrigger "запись, кашель" = true ∧
    Webhook.generate_response envBase (some 1) "запись, кашель" [] =
      { yields := []
        ret := some ((Webhook.schedule_appointment envBase
          (pyStrip (String.mk "запись".data)) (pyStrip (String.mk " кашель".data))).result.getD
          "Извините, произошла ошибка обработки запроса.")
        step := some 0
        calendar := (Webhook.schedule_appointment envBase
          (pyStrip (String.mk "запись".data)) (pyStrip (String.mk " кашель".data))).calendar
        attempts := (Webhook.schedule_appointment envBase
          (pyStrip (String.mk "запись".data)) (pyStrip (String.mk " кашель".data))).attempts } :=
  ⟨rfl, c3_amended envBase "запись, кашель" [] "запись".data " кашель".data rfl rfl⟩

/-- C9: evaluation at the failing input.  The details message
`Иван Петров, болит горло и температура`, received while the step is
AwaitingDetails, contains neither `запись` nor `симптом`, so in both app
variants the booking branch is skipped: the message goes to the LLM
streaming path, the step stays AwaitingDetails, no event is created and
no booking reply (specialist, name, formatted date) is produced —
contradicting the claim and the apps' own ChatInterface example pairs. -/
theorem c9_details_message_bypasses_booking :
    Webhook.isTrigger "Иван Петров, болит горло и температура" = false ∧
    CalendarApp.isTrigger "Иван Петров, болит горло и температура" = false ∧
    (Webhook.generate_response envBase (some 1)
      "Иван Петров, болит горло и температура" []).step = some 1 ∧
    (Webhook.generate_response envBase (some 1)
      "Иван Петров, болит горло и температура" []).calendar = [] ∧
    (Webhook.generate_response envBase (some 1)
      "Иван Петров, болит горло и температура" []).ret = none ∧
    (CalendarApp.generate_response envBase (some 1)
      "Иван Петров, болит горло и температура" []).step = some 1 ∧
    (CalendarApp.generate_response envBase (some 1)
      "Иван Петров, болит горло и температура" []).calendar = [] := by
  refine ⟨rfl, rfl, rfl, rfl, rfl, rfl, rfl⟩

/-- C10: both chat handlers are generator functions whose booking paths
end in a plain `return`, so on a trigger message at step unset/Idle, and
on any message reaching the details branch, the produced output sequence
is empty and the returned string (prompt, format error or booking result)
never appears in it — it is only the invisible generator return value. -/
theorem c10_booking_paths_yield_nothing (env : Env) (st : Option Nat) (message : String)
    (history : List (String × String))
    (h1 : Webhook.isTrigger message = true)
    (h2 : CalendarApp.isTrigger message = true)
    (h3 : st = none ∨ st = some 0 ∨ st = some 1) :
    (Webhook.generate_response env st message history).yields = [] ∧
    (Webhook.generate_response env st message history).ret.isSome = true ∧
    (CalendarApp.generate_response env st message history).yields = [] ∧
    (CalendarApp.generate_response env st message history).ret.isSome = true := by
  have hw : ∀ s : Option Nat, s = none ∨ s = some 0 ∨ s = some 1 →
      (Webhook.generate_response env s message history).yields = [] ∧
      (Webhook.generate_response env s message history).ret.isSome = true := by
    intro s hs
    rcases hs with rfl | rfl | rfl
    · exact ⟨by simp [Webhook.generate_response, h1], by simp [Webhook.generate_response, h1]⟩
    · exact ⟨by simp [Webhook.generate_response, h1], by simp [Webhook.generate_response, h1]⟩
    · cases hsp : splitFirst ',' message.data with
      | none =>
          exact ⟨by simp [Webhook.generate_response, h1, hsp],
                 by simp [Webhook.generate_response, h1, hsp]⟩
      | some ab =>
          obtain ⟨a, b⟩ := ab
          exact ⟨by simp [Webhook.generate_response, h1, hsp],
                 by simp [Webhook.generate_response, h1, hsp]⟩
  have hc : (CalendarApp.generate_response env st message history).yields = [] ∧
      (CalendarApp.generate_response env st message history).ret.isSome = true := by
    rcases h3 with rfl | rfl | rfl
    · exact ⟨by simp [CalendarApp.generate_response, h2],
             by simp [CalendarApp.generate_response, h2]⟩
    · exact ⟨by simp [CalendarApp.generate_response, h2],
             by simp [CalendarApp.generate_response, h2]⟩
    · cases hsp : splitFirst ' ' message.data with
      | none =>
          exact ⟨by simp [CalendarApp.generate_response, h2, hsp],
                 by simp [CalendarApp.generate_response, h2, hsp]⟩
      | some ab =>
          obtain ⟨a, b⟩ := ab
          exact ⟨by simp [CalendarApp.generate_response, h2, hsp],
                 by simp [CalendarApp.generate_response, h2, hsp]⟩
  exact ⟨(hw st h3).1, (hw st h3).2, hc.1, hc.2⟩

/-- C10 witness at a concrete input. -/
theorem c10_booking_paths_yield_nothing_witness :
    Webhook.isTrigger "Нужна запись к врачу" = true ∧
    (Webhook.generate_response envBase (some 0) "Нужна запись к врачу" []).yields = [] ∧
    (CalendarApp.generate_response envBase (some 0) "Нужна запись к врачу" []).yields = [] :=
  ⟨rfl,
    (c10_booking_paths_yield_nothing envBase (some 0) "Нужна запись к врачу" [] rfl rfl
      (Or.inr (Or.inl rfl))).1,
    (c10_booking_paths_yield_nothing envBase (some 0) "Нужна запись к врачу" [] rfl rfl
      (Or.inr (Or.inl rfl))).2.2.1⟩
